import Mathlib

/-!
Verification development for the tradin_backend conditional-order engine
and synthetic price state machine.

Conventions of the shallow embedding:
* JavaScript numbers are modelled by `ℚ`; a JS value that may be `NaN` or
  `undefined` is modelled by `Option ℚ` (`none` = NaN/undefined), with the
  JS comparison semantics that any comparison against NaN/undefined is false.
* Timestamps (`Date` values) are modelled by their millisecond value in `ℚ`
  (order-module timestamps use `ℤ`, which is all the code needs there).
* Mongoose documents are records; a collection is a `List`; `save` on an
  existing document replaces the list entry with the same id, `save` on a
  fresh document appends; a mongoose session/transaction is modelled by
  running all in-session mutations on a local copy of the store and
  discarding that copy on abort (`Except`).
-/

namespace Tradin

/-- A JS number that may be NaN or undefined (`none`). -/
abbrev JsNum := Option ℚ

/-- JS multiplication: NaN/undefined propagates. -/
def jsMul : JsNum → JsNum → JsNum
  | some a, some b => some (a * b)
  | _, _ => none

/-- JS addition: NaN/undefined propagates. -/
def jsAdd : JsNum → JsNum → JsNum
  | some a, some b => some (a + b)
  | _, _ => none

/-- JS subtraction: NaN/undefined propagates. -/
def jsSub : JsNum → JsNum → JsNum
  | some a, some b => some (a - b)
  | _, _ => none

/-- JS unary minus: NaN propagates. -/
def jsNeg : JsNum → JsNum
  | some a => some (-a)
  | none => none

/-- JS division: NaN/undefined propagates; division by zero yields a
non-finite value, also modelled by `none`. -/
def jsDiv : JsNum → JsNum → JsNum
  | some a, some b => if b = 0 then none else some (a / b)
  | _, _ => none

/-- JS `<` : any comparison involving NaN/undefined is false. -/
def jsLt : JsNum → JsNum → Bool
  | some a, some b => decide (a < b)
  | _, _ => false

/-- JS `q <= o` where the right side may be NaN/undefined. -/
def jsLeQ (q : ℚ) : Option ℚ → Bool
  | some s => decide (q ≤ s)
  | none => false

/-- JS `q >= o` where the right side may be NaN/undefined. -/
def jsGeQ (q : ℚ) : Option ℚ → Bool
  | some s => decide (s ≤ q)
  | none => false

/-- JS `q > o` where the right side may be undefined (`x > undefined` is false). -/
def jsGtO (q : ℚ) : Option ℚ → Bool
  | some s => decide (s < q)
  | none => false

/-- JS `q < o` where the right side may be undefined (`x < undefined` is false). -/
def jsLtO (q : ℚ) : Option ℚ → Bool
  | some s => decide (q < s)
  | none => false

/-!
## utils/priceManipulation.js — `calculateManipulatedPrice`

Source (part_002):
```
const progress = Math.min(elapsed / durationMs, 1);
const easeProgress = progress < 0.5 ? 2 * progress * progress
                                    : 1 - Math.pow(-2 * progress + 2, 2) / 2;
return startPrice + (endValue - startPrice) * easeProgress;
```
The config object `{startPrice, endValue, durationMs}` is flattened into
three arguments.
-/

/-- Embedding of `calculateManipulatedPrice` from the source. -/
def calculateManipulatedPrice (startPrice endValue durationMs elapsed : ℚ) : ℚ :=
  let progress := min (elapsed / durationMs) 1
  let easeProgress :=
    if progress < 1/2 then 2 * progress * progress
    else 1 - (-2 * progress + 2) ^ 2 / 2
  startPrice + (endValue - startPrice) * easeProgress

/-- Modelled from the spec words of claim C7 (for comparison with the source
function): progress is `clamp(elapsedMs/durationMs, 0, 1)`, i.e. clamped on
both sides, then the same quadratic ease-in-out is applied. -/
def specEaseClamped (startPrice endValue durationMs elapsed : ℚ) : ℚ :=
  let progress := max 0 (min (elapsed / durationMs) 1)
  let easeProgress :=
    if progress < 1/2 then 2 * progress * progress
    else 1 - (-2 * progress + 2) ^ 2 / 2
  startPrice + (endValue - startPrice) * easeProgress

/-!
## Data model of the order executor (ConditionalOrder.js, models, part_000)
-/

/-- `side` enum of ConditionalOrder.js. -/
inductive Side
  | BUY
  | SELL
deriving DecidableEq, Repr

/-- Order `type` enum of ConditionalOrder.js. -/
inductive OrderType
  | STOP_LIMIT
  | TRAILING_STOP
  | OCO
deriving DecidableEq, Repr

/-- Order `status` enum of ConditionalOrder.js. -/
inductive OrderStatus
  | ACTIVE
  | TRIGGERED
  | COMPLETED
  | CANCELED
deriving DecidableEq, Repr

/-- `trailingDelta.type` enum of ConditionalOrder.js. -/
inductive DeltaKind
  | PERCENTAGE
  | ABSOLUTE
deriving DecidableEq, Repr

/-- `trailingDelta` subdocument of ConditionalOrder.js. -/
structure TrailingDelta where
  type : DeltaKind
  value : ℚ
deriving DecidableEq, Repr

/-- `ocoPair` subdocument of ConditionalOrder.js. Mongo ObjectIds are
modelled by `ℕ`; the source truthiness check `order.ocoPair &&
order.ocoPair.stopOrderId` is modelled by the presence of the `Option`
wrapper on the order's `ocoPair` field (ObjectIds are never falsy). -/
structure OcoPair where
  stopOrderId : ℕ
  limitOrderId : ℕ
deriving DecidableEq, Repr

/-- A ConditionalOrder document. Optional schema fields are `Option`. -/
structure Order where
  id : ℕ
  user : ℕ
  symbol : String
  side : Side
  type : OrderType
  amount : ℚ
  status : OrderStatus
  stopPrice : Option ℚ
  limitPrice : Option ℚ
  trailingDelta : Option TrailingDelta
  trailingReferencePrice : Option ℚ
  ocoPair : Option OcoPair
  executedTradeId : Option ℕ
  triggeredAt : Option ℤ
  completedAt : Option ℤ
  canceledAt : Option ℤ
deriving DecidableEq, Repr

/-- A User document (the fields the executor touches). `balance` is a JS
number that the executor's arithmetic can turn into NaN. -/
structure User where
  id : ℕ
  balance : JsNum
deriving DecidableEq, Repr

/-- An Asset (position) document. -/
structure Asset where
  user : ℕ
  crypto : String
  amount : ℚ
  averagePrice : JsNum
deriving DecidableEq, Repr

/-- A Transaction (ledger) document; the ledger is append-only. -/
structure Transaction where
  id : ℕ
  user : ℕ
  type : String
  amount : JsNum
deriving DecidableEq, Repr

/-- The persistent store the executor reads and writes. -/
structure DB where
  users : List User
  assets : List Asset
  transactions : List Transaction
  orders : List Order
deriving DecidableEq, Repr

/-- `order.save()` for an order document that already exists in the
collection: replace the entry with the same `_id`. -/
def saveOrder (db : DB) (o : Order) : DB :=
  { db with orders := db.orders.map (fun x => if x.id = o.id then o else x) }

/-- `user.save()`: replace the user with the same `_id`. -/
def saveUser (db : DB) (u : User) : DB :=
  { db with users := db.users.map (fun x => if x.id = u.id then u else x) }

/-- `asset.save()` on a possibly fresh document: update in place if a
position for this `(user, crypto)` exists, insert otherwise. -/
def upsertAsset (db : DB) (a : Asset) : DB :=
  if db.assets.any (fun x => decide (x.user = a.user ∧ x.crypto = a.crypto)) then
    { db with assets :=
        db.assets.map (fun x => if x.user = a.user ∧ x.crypto = a.crypto then a else x) }
  else
    { db with assets := db.assets ++ [a] }

/-- `asset.remove()`: delete the position for this `(user, crypto)`. -/
def removeAsset (db : DB) (userId : ℕ) (crypto : String) : DB :=
  { db with assets :=
      db.assets.filter (fun x => decide ¬(x.user = userId ∧ x.crypto = crypto)) }

/-- `new Transaction(...).save()`: append a ledger entry. -/
def appendTransaction (db : DB) (t : Transaction) : DB :=
  { db with transactions := db.transactions ++ [t] }

/-- `ConditionalOrder.findByIdAndUpdate(id, {status:'CANCELED', canceledAt:now})`. -/
def cancelOrderById (db : DB) (id : ℕ) (now : ℤ) : DB :=
  { db with orders := db.orders.map (fun x =>
      if x.id = id then
        { x with status := OrderStatus.CANCELED, canceledAt := some now }
      else x) }

/-- Look an order up by id. -/
def getOrder (db : DB) (id : ℕ) : Option Order :=
  db.orders.find? (fun o => decide (o.id = id))

/-!
## services/orderExecutor.js (part_000) — `executeTrade`
-/

/-- The errors `executeTrade` can throw inside its transaction. -/
inductive TradeError
  | UserNotFound
  | InsufficientFunds
  | InsufficientHoldings
deriving DecidableEq, Repr

/-- Source line 22: `const executionPrice = limitPrice;` — the execution
price is the order's `limitPrice` for every order type (for a
TRAILING_STOP order `limitPrice` is never populated, so this is
`undefined`). -/
def executionPrice (o : Order) : Option ℚ :=
  o.limitPrice

/-- Source line 23: `const total = amount * executionPrice;` (`amount *
undefined` is NaN, modelled by `none`). -/
def tradeTotal (o : Order) : JsNum :=
  jsMul (some o.amount) (executionPrice o)

/-- The body of `executeTrade`'s `try` block: every mutation runs inside
the mongoose session, so the whole block either produces the new store
(commit) or an error (abort discards all session writes). -/
def executeTradeCore (db : DB) (order : Order) (now : ℤ) (txId : ℕ) :
    Except TradeError DB :=
  match db.users.find? (fun u => decide (u.id = order.user)) with
  | none => .error .UserNotFound
  | some user =>
    let total := tradeTotal order
    let afterSide : Except TradeError (DB × User) :=
      match order.side with
      | Side.BUY =>
        if jsLt user.balance total then .error .InsufficientFunds
        else
          let user := { user with balance := jsSub user.balance total }
          let db :=
            match db.assets.find?
                (fun a => decide (a.user = order.user ∧ a.crypto = order.symbol)) with
            | none =>
              upsertAsset db
                { user := order.user, crypto := order.symbol,
                  amount := order.amount, averagePrice := executionPrice order }
            | some asset =>
              let prevAmount := asset.amount
              let newAmount := prevAmount + order.amount
              let newAvg :=
                jsDiv
                  (jsAdd (jsMul (some prevAmount) asset.averagePrice)
                         (jsMul (some order.amount) (executionPrice order)))
                  (some newAmount)
              upsertAsset db { asset with averagePrice := newAvg, amount := newAmount }
          .ok (db, user)
      | Side.SELL =>
        match db.assets.find?
            (fun a => decide (a.user = order.user ∧ a.crypto = order.symbol)) with
        | none => .error .InsufficientHoldings
        | some asset =>
          if asset.amount < order.amount then .error .InsufficientHoldings
          else
            let asset := { asset with amount := asset.amount - order.amount }
            let user := { user with balance := jsAdd user.balance total }
            let db :=
              if asset.amount > 0 then upsertAsset db asset
              else removeAsset db order.user order.symbol
            .ok (db, user)
    match afterSide with
    | .error e => .error e
    | .ok (db, user) =>
      let db := saveUser db user
      let tx : Transaction :=
        { id := txId, user := order.user, type := "trade",
          amount := match order.side with
                    | Side.BUY => jsNeg total
                    | Side.SELL => total }
      let db := appendTransaction db tx
      let order :=
        { order with status := OrderStatus.COMPLETED,
                     completedAt := some now, executedTradeId := some txId }
      .ok (saveOrder db order)

/-- Embedding of `executeTrade`: on commit, the OCO sibling cancellation
runs after (outside) the transaction; on abort, the only write is the
order reverted to `ACTIVE`. The sibling chosen by the source is
`ocoPair.limitOrderId` when the completed order's `type` is `STOP_LIMIT`
and `ocoPair.stopOrderId` otherwise. -/
def executeTrade (db : DB) (order : Order) (now : ℤ) (txId : ℕ) : DB :=
  match executeTradeCore db order now txId with
  | .ok db' =>
    match order.ocoPair with
    | some pair =>
      let otherOrderId :=
        if order.type = OrderType.STOP_LIMIT then pair.limitOrderId
        else pair.stopOrderId
      cancelOrderById db' otherOrderId now
    | none => db'
  | .error _ =>
    saveOrder db { order with status := OrderStatus.ACTIVE }

/-!
## services/orderExecutor.js (part_000) — `processPriceUpdate`
-/

/-- JS `order.trailingReferencePrice || 0` (undefined gives 0; a stored 0
also gives 0, which coincides with the stored value). -/
def jsOr0 : Option ℚ → ℚ
  | some r => r
  | none => 0

/-- The `delta` computed on a trailing recompute:
`trailingDelta.type === 'PERCENTAGE' ? ref * (value / 100) : value`.
The source reads `order.trailingDelta.type` directly; on an order without
a `trailingDelta` this would be a runtime TypeError, which well-formed
TRAILING_STOP orders (spec §3 invariant) never hit, so that case is
mapped to 0 here and excluded by hypothesis in every theorem that uses it. -/
def trailingDeltaValue (d : Option TrailingDelta) (ref : ℚ) : ℚ :=
  match d with
  | some d =>
    match d.type with
    | DeltaKind.PERCENTAGE => ref * (d.value / 100)
    | DeltaKind.ABSOLUTE => d.value
  | none => 0

/-- The SELL branch of the TRAILING_STOP update (source lines 97-106):
track the peak, and on a new peak recompute `stopPrice = peak - delta`. -/
def trailingStepSell (o : Order) (currentPrice : ℚ) : Order :=
  let newRefPrice := max (jsOr0 o.trailingReferencePrice) currentPrice
  if jsGtO newRefPrice o.trailingReferencePrice then
    let delta := trailingDeltaValue o.trailingDelta newRefPrice
    { o with trailingReferencePrice := some newRefPrice,
             stopPrice := some (newRefPrice - delta) }
  else o

/-- JS `Math.min(ref || Infinity, price)` (undefined or 0 gives Infinity,
so the min is `price`). -/
def jsOrInfMin (ref : Option ℚ) (p : ℚ) : ℚ :=
  match ref with
  | some r => if r = 0 then p else min r p
  | none => p

/-- The BUY branch of the TRAILING_STOP update (source lines 110-118):
track the trough, and on a new trough recompute `stopPrice = trough + delta`. -/
def trailingStepBuy (o : Order) (currentPrice : ℚ) : Order :=
  let newRefPrice := jsOrInfMin o.trailingReferencePrice currentPrice
  if jsLtO newRefPrice o.trailingReferencePrice then
    let delta := trailingDeltaValue o.trailingDelta newRefPrice
    { o with trailingReferencePrice := some newRefPrice,
             stopPrice := some (newRefPrice + delta) }
  else o

/-- Source lines 131-138: mark the order TRIGGERED, save it, and execute
the trade immediately. The `ℕ` component threads fresh transaction ids. -/
def triggerAndExecute (db : DB) (o : Order) (now : ℤ) (txc : ℕ) : DB × ℕ :=
  let o := { o with status := OrderStatus.TRIGGERED, triggeredAt := some now }
  let db := saveOrder db o
  (executeTrade db o now txc, txc + 1)

/-- One iteration of the `for (const order of activeOrders)` loop, acting
on the snapshot document `o` (mutations by earlier iterations of the same
tick are not re-read, as in the source). -/
def processOrder (currentPrice : ℚ) (now : ℤ) (acc : DB × ℕ) (o : Order) : DB × ℕ :=
  let db := acc.1
  let txc := acc.2
  match o.type with
  | OrderType.TRAILING_STOP =>
    match o.side with
    | Side.SELL =>
      let o' := trailingStepSell o currentPrice
      let db := if o' = o then db else saveOrder db o'
      if jsLeQ currentPrice o'.stopPrice then triggerAndExecute db o' now txc
      else (db, txc)
    | Side.BUY =>
      let o' := trailingStepBuy o currentPrice
      let db := if o' = o then db else saveOrder db o'
      if jsGeQ currentPrice o'.stopPrice then triggerAndExecute db o' now txc
      else (db, txc)
  | _ =>
    match o.side with
    | Side.SELL =>
      if jsLeQ currentPrice o.stopPrice then triggerAndExecute db o now txc
      else (db, txc)
    | Side.BUY =>
      if jsGeQ currentPrice o.stopPrice then triggerAndExecute db o now txc
      else (db, txc)

/-- Embedding of `processPriceUpdate(symbol, currentPrice)`: snapshot the
ACTIVE orders of the symbol, then fold the per-order evaluation over the
snapshot. `now` is the tick's clock value, `txc` the next fresh
transaction id. -/
def processPriceUpdate (db : DB) (symbol : String) (currentPrice : ℚ)
    (now : ℤ) (txc : ℕ) : DB × ℕ :=
  let activeOrders := db.orders.filter
    (fun o => decide (o.symbol = symbol ∧ o.status = OrderStatus.ACTIVE))
  activeOrders.foldl (processOrder currentPrice now) (db, txc)

/-!
## models/MarketPrice.js + services/priceUpdater.js — per-symbol tick
-/

/-- The `manipulation` subdocument of MarketPrice. Times are millisecond
values. The numeric fields are always populated by the route that creates
a manipulation; the source's cleared state
`{isActive:false, isCoolingDown:false}` (all other fields undefined)
behaves exactly like an absent subdocument in every read the updater
performs, and is modelled by `none` at the `PriceDoc.manipulation` level. -/
structure Manip where
  startTime : ℚ
  endTime : ℚ
  coolDownEndTime : Option ℚ
  endValue : ℚ
  durationMs : ℚ
  originalPrice : ℚ
  isActive : Bool
  isCoolingDown : Bool
deriving DecidableEq, Repr

/-- A MarketPrice document (the PriceState of the spec). `open_` stands
for the schema's `open` field, a reserved word in Lean. -/
structure PriceDoc where
  symbol : String
  price : ℚ
  updatedAt : ℚ
  open_ : ℚ
  high : ℚ
  low : ℚ
  lastDay : Option String
  manipulation : Option Manip
deriving DecidableEq, Repr

/-- `Number(x.toFixed(8))`: round to 8 decimal places. (`toFixed` rounds
ties away from zero while `round` rounds them up; prices on a tie of the
9th decimal are the only inputs where the two differ.) -/
def round8 (x : ℚ) : ℚ :=
  (round (x * 100000000) : ℤ) / 100000000

/-- JS `a || b` on numbers where `a` is falsy exactly when it is 0. -/
def jsFalsyOr (a b : ℚ) : ℚ :=
  if a = 0 then b else a

/-- The manipulation branch of `tick` (priceUpdater.js lines 94-159):
resolve the tick's new raw price and the successor manipulation
sub-state. `cmp` is the already-resolved `currentMarketPrice` (WS cache,
else fetched, else random walk) and `noise` the two sine waves plus the
uniform noise the source layers on during the active window; both are
supplied by the environment. -/
def manipNewPrice (manip : Option Manip) (now cmp noise : ℚ) : ℚ × Option Manip :=
  match manip with
  | some manip =>
    if manip.isActive then
      if manip.startTime ≤ now ∧ now < manip.endTime then
        let elapsed := now - manip.startTime
        let base := calculateManipulatedPrice manip.originalPrice manip.endValue
          manip.durationMs elapsed
        (base + noise, some manip)
      else if manip.endTime ≤ now then
        let coolDownDurationMs := manip.durationMs / 2
        (manip.endValue,
         some { manip with isActive := false, isCoolingDown := true,
                           coolDownEndTime := some (manip.endTime + coolDownDurationMs) })
      else
        (cmp, some manip)
    else if manip.isCoolingDown then
      let coolDownEndTime := manip.coolDownEndTime.getD 0
      let coolDownStartTime := coolDownEndTime - manip.durationMs / 2
      if now < coolDownEndTime then
        let elapsed := now - coolDownStartTime
        let duration := coolDownEndTime - coolDownStartTime
        (calculateManipulatedPrice manip.endValue cmp duration elapsed, some manip)
      else
        (cmp, none)
    else
      (cmp, some manip)
  | none => (cmp, none)

/-- The per-symbol body of `tick` (priceUpdater.js lines 86-166): daily
OHLC reset, new-price resolution, rounding, and the high/low extension. -/
def tickSymbol (doc : PriceDoc) (now : ℚ) (today : String) (cmp noise : ℚ) : PriceDoc :=
  let doc :=
    if doc.lastDay ≠ some today then
      { doc with open_ := cmp, high := cmp, low := cmp, lastDay := some today }
    else doc
  let res := manipNewPrice doc.manipulation now cmp noise
  let price := round8 res.1
  { doc with price := price, updatedAt := now, manipulation := res.2,
             high := max (jsFalsyOr doc.high price) price,
             low := min (jsFalsyOr doc.low price) price }

/-!
## routes/prices.js — `POST /manipulate`
-/

/-- The validation rejections of the manipulation command (after the
upstream required-field and date-format checks, which the spec assigns to
the excluded collaborators). -/
inductive ManipError
  | InvalidWindow
  | SymbolNotFound
deriving DecidableEq, Repr

/-- A document of the `Manipulation` record collection. -/
structure ManipRecord where
  symbol : String
  startTime : ℚ
  endTime : ℚ
  endValue : ℚ
  originalPrice : ℚ
  durationMs : ℚ
deriving DecidableEq, Repr

/-- The state the manipulation command reads and writes: the MarketPrice
collection and the append-only Manipulation record collection. -/
structure PricesState where
  docs : List PriceDoc
  manips : List ManipRecord
deriving DecidableEq, Repr

/-- The manipulation subdocument the route stores:
`{...manipulationData, isActive: true}`; `isCoolingDown` is the schema
default `false`, `coolDownEndTime` is unset. -/
def mkManip (startTime endTime endValue originalPrice : ℚ) : Manip :=
  { startTime := startTime, endTime := endTime, coolDownEndTime := none,
    endValue := endValue, durationMs := endTime - startTime,
    originalPrice := originalPrice, isActive := true, isCoolingDown := false }

/-- The record the route appends to the Manipulation collection. -/
def mkManipRecord (symbol : String) (startTime endTime endValue originalPrice : ℚ) :
    ManipRecord :=
  { symbol := symbol, startTime := startTime, endTime := endTime,
    endValue := endValue, originalPrice := originalPrice,
    durationMs := endTime - startTime }

/-- Embedding of the `POST /manipulate` handler body (prices.js lines
57-94), after the upstream auth, required-field and date-format checks:
reject `InvalidWindow` when `end <= start`, then `SymbolNotFound` when no
MarketPrice document exists; otherwise store the subdocument on the
symbol's document and append a Manipulation record. The state is returned
unchanged alongside either rejection. -/
def setManipulation (st : PricesState) (symbol : String)
    (startTime endTime endValue : ℚ) : PricesState × Except ManipError Manip :=
  if endTime ≤ startTime then
    (st, .error .InvalidWindow)
  else
    match st.docs.find? (fun d => decide (d.symbol = symbol)) with
    | none => (st, .error .SymbolNotFound)
    | some doc =>
      let m := mkManip startTime endTime endValue doc.price
      let doc' := { doc with manipulation := some m }
      ({ docs := st.docs.map (fun d => if d.symbol = symbol then doc' else d),
         manips := st.manips ++ [mkManipRecord symbol startTime endTime endValue doc.price] },
       .ok m)

/-!
## Spec-side predicates and concrete instances used by the theorems
-/

/-- Decidable equality of `Except` values, to evaluate the embedding's
fallible operations on concrete inputs. -/
instance {ε α : Type} [DecidableEq ε] [DecidableEq α] : DecidableEq (Except ε α) := fun a b =>
  match a, b with
  | .error e, .error f =>
    if h : e = f then .isTrue (by rw [h]) else .isFalse (fun c => h (by injection c))
  | .ok x, .ok y =>
    if h : x = y then .isTrue (by rw [h]) else .isFalse (fun c => h (by injection c))
  | .error _, .ok _ => .isFalse (fun c => Except.noConfusion c)
  | .ok _, .error _ => .isFalse (fun c => Except.noConfusion c)

/-- The implicit invariant of claim C10: the two manipulation lifecycle
flags are never both set. -/
def manipOK : Option Manip → Bool
  | some m => !(m.isActive && m.isCoolingDown)
  | none => true

/-- C1 scenario: owner of a 0.5-amount position. -/
def c1user : User := { id := 10, balance := some 1000 }

/-- C1 scenario: position of amount 0.5. -/
def c1asset : Asset := { user := 10, crypto := "BTCUSDT", amount := 1/2, averagePrice := some 40000 }

/-- C1 scenario: a TRIGGERED SELL order requesting amount 1. -/
def c1order : Order :=
  { id := 1, user := 10, symbol := "BTCUSDT", side := Side.SELL,
    type := OrderType.STOP_LIMIT, amount := 1, status := OrderStatus.TRIGGERED,
    stopPrice := some 45000, limitPrice := some 44000, trailingDelta := none,
    trailingReferencePrice := none, ocoPair := none, executedTradeId := none,
    triggeredAt := some 5, completedAt := none, canceledAt := none }

/-- C1 scenario store. -/
def c1db : DB :=
  { users := [c1user], assets := [c1asset], transactions := [], orders := [c1order] }

/-- C2 scenario: owner of the OCO pair. -/
def ocoUser : User := { id := 10, balance := some 1000 }

/-- C2 scenario: the owner's position. -/
def ocoAsset : Asset := { user := 10, crypto := "BTCUSDT", amount := 5, averagePrice := some 50 }

/-- C2 scenario: the stop leg of the OCO pair — its own id is
`ocoPair.stopOrderId`. -/
def ocoA : Order :=
  { id := 1, user := 10, symbol := "BTCUSDT", side := Side.SELL,
    type := OrderType.OCO, amount := 1, status := OrderStatus.ACTIVE,
    stopPrice := some 90, limitPrice := some 100, trailingDelta := none,
    trailingReferencePrice := none,
    ocoPair := some { stopOrderId := 1, limitOrderId := 2 },
    executedTradeId := none, triggeredAt := none, completedAt := none,
    canceledAt := none }

/-- C2 scenario: the limit leg of the OCO pair. -/
def ocoB : Order := { ocoA with id := 2, stopPrice := some 80, limitPrice := some 85 }

/-- C2 scenario store. -/
def ocoDb : DB :=
  { users := [ocoUser], assets := [ocoAsset], transactions := [], orders := [ocoA, ocoB] }

/-- C2: state after the tick at price 90 that completes the stop leg. -/
def ocoDb1 : DB := (processPriceUpdate ocoDb "BTCUSDT" 90 11 100).1

/-- C2: state after the next tick, at price 80. -/
def ocoDb2 : DB := (processPriceUpdate ocoDb1 "BTCUSDT" 80 12 101).1

/-- C4 scenario: the order's owner with balance 30000. -/
def c4user : User := { id := 10, balance := some 30000 }

/-- C4 scenario: ACTIVE BUY STOP_LIMIT, stopPrice 29000, limitPrice 29500,
amount 1. -/
def c4order : Order :=
  { id := 1, user := 10, symbol := "BTCUSDT", side := Side.BUY,
    type := OrderType.STOP_LIMIT, amount := 1, status := OrderStatus.ACTIVE,
    stopPrice := some 29000, limitPrice := some 29500, trailingDelta := none,
    trailingReferencePrice := none, ocoPair := none, executedTradeId := none,
    triggeredAt := none, completedAt := none, canceledAt := none }

/-- C4 scenario store. -/
def c4db : DB := { users := [c4user], assets := [], transactions := [], orders := [c4order] }

/-- C4: state after a tick delivering price 29100 (which does trigger the
BUY stop). -/
def c4res : DB := (processPriceUpdate c4db "BTCUSDT" 29100 3 50).1

/-- C3 failing input: a TRIGGERED TRAILING_STOP SELL order whose
dynamically last-computed stopPrice is 105 (trailing orders carry no
limitPrice). -/
def c3order : Order :=
  { id := 1, user := 10, symbol := "X", side := Side.SELL,
    type := OrderType.TRAILING_STOP, amount := 1, status := OrderStatus.TRIGGERED,
    stopPrice := some 105, limitPrice := none,
    trailingDelta := some { type := DeltaKind.ABSOLUTE, value := 5 },
    trailingReferencePrice := some 110, ocoPair := none, executedTradeId := none,
    triggeredAt := some 3, completedAt := none, canceledAt := none }

/-- C5 counterexample: ACTIVE TRAILING_STOP SELL with a PERCENTAGE delta
of value 200 and reference 50. -/
def c5order : Order :=
  { id := 1, user := 10, symbol := "X", side := Side.SELL,
    type := OrderType.TRAILING_STOP, amount := 1, status := OrderStatus.ACTIVE,
    stopPrice := none, limitPrice := none,
    trailingDelta := some { type := DeltaKind.PERCENTAGE, value := 200 },
    trailingReferencePrice := some 50, ocoPair := none, executedTradeId := none,
    triggeredAt := none, completedAt := none, canceledAt := none }

/-- C5 counterexample store. -/
def c5db : DB := { users := [], assets := [], transactions := [], orders := [c5order] }

/-- C5 counterexample: state after the tick at price 100. -/
def c5db1 : DB := (processPriceUpdate c5db "X" 100 1 0).1

/-- C5 counterexample: state after the next tick, at price 110. -/
def c5db2 : DB := (processPriceUpdate c5db1 "X" 110 2 0).1

/-- C5 example: ABSOLUTE trailing delta of value 5. -/
def exDelta : TrailingDelta := { type := DeltaKind.ABSOLUTE, value := 5 }

/-- C5 example: fresh ACTIVE TRAILING_STOP SELL with reference 100. -/
def exOrder : Order :=
  { c5order with trailingDelta := some exDelta, trailingReferencePrice := some 100 }

/-- C5 example store. -/
def exDb : DB := { users := [], assets := [], transactions := [], orders := [exOrder] }

/-- C5 example: after the tick at price 100 (no new peak). -/
def exDb1 : DB := (processPriceUpdate exDb "X" 100 1 0).1

/-- C5 example: after the tick at price 110 (new peak; stop recomputed). -/
def exDb2 : DB := (processPriceUpdate exDb1 "X" 110 2 0).1

/-- C5 example: after the pullback tick at price 105 (trigger fires). -/
def exDb3 : DB := (processPriceUpdate exDb2 "X" 105 3 0).1

/-- C9 counterexample state: no PriceState exists for any symbol. -/
def st9 : PricesState := { docs := [], manips := [] }

/-- C9 witness document: a symbol with a PriceState at price 45000. -/
def pd0 : PriceDoc :=
  { symbol := "BTCUSDT", price := 45000, updatedAt := 0, open_ := 0, high := 0,
    low := 0, lastDay := none, manipulation := none }

/-- C9 witness state. -/
def st9ok : PricesState := { docs := [pd0], manips := [] }

/-- C10 witness: an active manipulation whose window has just elapsed. -/
def mA : Manip :=
  { startTime := 0, endTime := 10, coolDownEndTime := none, endValue := 50,
    durationMs := 10, originalPrice := 40, isActive := true, isCoolingDown := false }

/-- C10 witness document. -/
def pdA : PriceDoc :=
  { symbol := "X", price := 40, updatedAt := 0, open_ := 40, high := 41, low := 39,
    lastDay := some "2026-10-11", manipulation := some mA }

/-!
## Theorems
-/

/-- C1: trade execution is all-or-nothing. Whenever the transactional body
of `executeTrade` fails — user not found, insufficient funds, insufficient
holdings — the store's users (balances), assets (positions) and
transactions (ledger) are left exactly as they were and the only write is
the order reverted to ACTIVE; in particular the TRIGGERED SELL order
requesting amount 1 against a position of amount 0.5 is rejected with
`InsufficientHoldings` and mutates no state. -/
theorem c1_execution_failure_is_atomic :
    (∀ (db : DB) (o : Order) (now : ℤ) (txId : ℕ) (e : TradeError),
       executeTradeCore db o now txId = .error e →
       (executeTrade db o now txId).users = db.users ∧
       (executeTrade db o now txId).assets = db.assets ∧
       (executeTrade db o now txId).transactions = db.transactions ∧
       executeTrade db o now txId = saveOrder db { o with status := OrderStatus.ACTIVE }) ∧
    (executeTradeCore c1db c1order 5 7 = .error TradeError.InsufficientHoldings ∧
     (executeTrade c1db c1order 5 7).users = c1db.users ∧
     (executeTrade c1db c1order 5 7).assets = c1db.assets ∧
     (executeTrade c1db c1order 5 7).transactions = c1db.transactions ∧
     (getOrder (executeTrade c1db c1order 5 7) 1).map Order.status =
       some OrderStatus.ACTIVE) := by
  constructor
  · intro db o now txId e h
    unfold executeTrade
    rw [h]
    exact ⟨rfl, rfl, rfl, rfl⟩
  · refine ⟨?_, ?_, ?_, ?_, ?_⟩ <;>
      norm_num [executeTrade, executeTradeCore, tradeTotal, executionPrice, jsMul, jsAdd, jsSub,
    jsNeg, jsDiv, jsLt, saveOrder, saveUser, upsertAsset, removeAsset,
    appendTransaction, cancelOrderById, getOrder,
        c1db, c1user, c1asset, c1order]

/-- Witness for C1: the atomicity theorem applied to the concrete
insufficient-holdings scenario store. -/
theorem c1_execution_failure_is_atomic_witness :
    (executeTrade c1db c1order 5 7).users = c1db.users ∧
    (executeTrade c1db c1order 5 7).assets = c1db.assets ∧
    (executeTrade c1db c1order 5 7).transactions = c1db.transactions := by
  have h := c1_execution_failure_is_atomic.1 c1db c1order 5 7
    TradeError.InsufficientHoldings (by
      norm_num [executeTradeCore, tradeTotal, executionPrice, jsMul, jsLt,
        c1db, c1user, c1asset, c1order])
  exact ⟨h.1, h.2.1, h.2.2.1⟩

/-- C2: evaluating the executor's OCO cancellation at a concrete pair
shows the claimed invariant broken. Both legs of an OCO pair have type
OCO, so on completion the source picks `ocoPair.stopOrderId` as "the
other" order; when the stop leg (id 1, `stopOrderId = 1`) completes
first, it cancels itself — its COMPLETED status is overwritten to
CANCELED — while the sibling (id 2) stays ACTIVE after the completion and
later completes its own trade, leaving two executed-trade ledger entries
for the pair. -/
theorem c2_oco_stop_leg_cancels_itself :
    (getOrder ocoDb1 2).map Order.status = some OrderStatus.ACTIVE ∧
    (getOrder ocoDb1 1).map Order.status = some OrderStatus.CANCELED ∧
    ocoDb1.transactions.length = 1 ∧
    (getOrder ocoDb2 2).map Order.status = some OrderStatus.COMPLETED ∧
    ocoDb2.transactions.length = 2 := by
  refine ⟨?_, ?_, ?_, ?_, ?_⟩ <;>
    norm_num +decide [ocoDb2, ocoDb1, processPriceUpdate, processOrder, triggerAndExecute, trailingStepSell,
    trailingStepBuy, trailingDeltaValue, jsLeQ, jsGeQ, jsGtO, jsLtO, jsOr0, jsOrInfMin,
    executeTrade, executeTradeCore, tradeTotal, executionPrice, jsMul, jsAdd, jsSub,
    jsNeg, jsDiv, jsLt, saveOrder, saveUser, upsertAsset, removeAsset,
    appendTransaction, cancelOrderById, getOrder,
      ocoDb, ocoUser, ocoAsset, ocoA, ocoB]

/-- C3: the executor computes the trade total as `amount * limitPrice`
for every order type. A TRIGGERED TRAILING_STOP order carries no
`limitPrice`, so at the failing input (amount 1, dynamically computed
stopPrice 105) the total is NaN (`none`) — not `amount * stopPrice = 105`
as the claim states — while a STOP_LIMIT order with limitPrice 29500 does
get total 29500. -/
theorem c3_trailing_total_is_nan :
    executionPrice c3order = none ∧
    tradeTotal c3order = none ∧
    c3order.stopPrice = some 105 ∧
    c3order.amount = 1 ∧
    tradeTotal c4order = some 29500 := by
  refine ⟨rfl, rfl, rfl, rfl, ?_⟩
  norm_num [tradeTotal, executionPrice, jsMul, c4order]

/-- C4 counterexample: the claim as stated is false — a tick delivering
price 28900 does NOT trigger the ACTIVE BUY STOP_LIMIT order with
stopPrice 29000 (BUY stops trigger on `price ≥ stopPrice`), so the store
is completely unchanged: balance stays 30000, no position, no ledger
entry, order still ACTIVE. -/
theorem c4_buy_stop_28900_counterexample :
    (processPriceUpdate c4db "BTCUSDT" 28900 3 50).1 = c4db ∧
    c4db.users = [{ id := 10, balance := some 30000 }] ∧
    c4db.assets = [] ∧
    c4db.transactions = [] ∧
    (getOrder c4db 1).map Order.status = some OrderStatus.ACTIVE := by
  refine ⟨?_, ?_, rfl, rfl, ?_⟩ <;>
    norm_num [processPriceUpdate, processOrder, triggerAndExecute, trailingStepSell,
    trailingStepBuy, trailingDeltaValue, jsLeQ, jsGeQ, jsGtO, jsLtO, jsOr0, jsOrInfMin,
    executeTrade, executeTradeCore, tradeTotal, executionPrice, jsMul, jsAdd, jsSub,
    jsNeg, jsDiv, jsLt, saveOrder, saveUser, upsertAsset, removeAsset,
    appendTransaction, cancelOrderById, getOrder,
      c4db, c4user, c4order]

/-- C4 (amended): a tick delivering a price at or above the stop
(e.g. 29100) triggers the BUY STOP_LIMIT order, and after execution the
owner's balance is 500, the position holds amount 1 at averagePrice
29500, exactly one ledger entry of −29500 was appended, and the order is
COMPLETED with the trade linked. -/
theorem c4_buy_stop_scenario :
    c4res.users = [{ id := 10, balance := some 500 }] ∧
    c4res.assets = [{ user := 10, crypto := "BTCUSDT", amount := 1,
                      averagePrice := some 29500 }] ∧
    c4res.transactions = [{ id := 50, user := 10, type := "trade",
                            amount := some (-29500) }] ∧
    (getOrder c4res 1).map Order.status = some OrderStatus.COMPLETED ∧
    (getOrder c4res 1).map Order.executedTradeId = some (some 50) := by
  refine ⟨?_, ?_, ?_, ?_, ?_⟩ <;>
    norm_num [c4res, processPriceUpdate, processOrder, triggerAndExecute, trailingStepSell,
    trailingStepBuy, trailingDeltaValue, jsLeQ, jsGeQ, jsGtO, jsLtO, jsOr0, jsOrInfMin,
    executeTrade, executeTradeCore, tradeTotal, executionPrice, jsMul, jsAdd, jsSub,
    jsNeg, jsDiv, jsLt, saveOrder, saveUser, upsertAsset, removeAsset,
    appendTransaction, cancelOrderById, getOrder,
      c4db, c4user, c4order]

/-- C5 counterexample: the claim as stated is false — for a PERCENTAGE
trailing delta with value 200 (> 100), the stopPrice of an ACTIVE
TRAILING_STOP SELL order strictly decreases across rising ticks: starting
from reference 50, the tick at price 100 computes stopPrice −100, the
next tick at price 110 recomputes it to −110 < −100, and the order is
still ACTIVE after both ticks. -/
theorem c5_percentage_delta_counterexample :
    (getOrder c5db1 1).map Order.stopPrice = some (some (-100)) ∧
    (getOrder c5db2 1).map Order.stopPrice = some (some (-110)) ∧
    (getOrder c5db2 1).map Order.status = some OrderStatus.ACTIVE ∧
    ((-110 : ℚ) < -100) := by
  refine ⟨?_, ?_, ?_, by norm_num⟩ <;>
    norm_num +decide [c5db2, c5db1, processPriceUpdate, processOrder, triggerAndExecute,
      trailingStepSell, trailingStepBuy, trailingDeltaValue, jsLeQ, jsGeQ, jsGtO, jsLtO,
      jsOr0, jsOrInfMin, saveOrder, getOrder, c5db, c5order]

/-- C5 (amended): for an ACTIVE TRAILING_STOP SELL order whose trailing
delta is ABSOLUTE, or PERCENTAGE with value ≤ 100, the per-tick trailing
update keeps the reference price non-decreasing, keeps the stopPrice of
the form `peak − delta` (recomputed only on a new peak), and never
decreases an already-computed stopPrice; and the claim's example holds:
from reference 100 with ABSOLUTE delta 5, ticks 100 → 110 → 105 leave
stopPrice 105 after the pullback and the 105 tick triggers the order
(triggeredAt is stamped). -/
theorem c5_trailing_sell_stop_monotone :
    (∀ (o : Order) (d : TrailingDelta) (r p : ℚ),
      o.trailingDelta = some d →
      (d.type = DeltaKind.ABSOLUTE ∨ d.value ≤ 100) →
      o.trailingReferencePrice = some r →
      (o.stopPrice = none ∨ o.stopPrice = some (r - trailingDeltaValue (some d) r)) →
      ∃ r', (trailingStepSell o p).trailingReferencePrice = some r' ∧ r ≤ r' ∧
        ((trailingStepSell o p).stopPrice = o.stopPrice ∨
          (trailingStepSell o p).stopPrice = some (r' - trailingDeltaValue (some d) r')) ∧
        (∀ s s', o.stopPrice = some s → (trailingStepSell o p).stopPrice = some s' →
          s ≤ s')) ∧
    ((getOrder exDb2 1).map Order.stopPrice = some (some 105) ∧
     (getOrder exDb2 1).map Order.trailingReferencePrice = some (some 110) ∧
     (getOrder exDb2 1).map Order.status = some OrderStatus.ACTIVE ∧
     (getOrder exDb3 1).map Order.triggeredAt = some (some 3)) := by
  constructor
  · intro o d r p hd hcond hr hwf
    by_cases hc : r < max r p
    · have hstep : trailingStepSell o p =
          { o with trailingReferencePrice := some (max r p),
                   stopPrice :=
                     some (max r p - trailingDeltaValue o.trailingDelta (max r p)) } := by
        simp [trailingStepSell, hr, jsOr0, jsGtO, hc]
      have hmono : r - trailingDeltaValue (some d) r ≤
          max r p - trailingDeltaValue (some d) (max r p) := by
        have hrR : r ≤ max r p := le_max_left r p
        rcases ht : d.type with _ | _
        · rcases hcond with habs | hle
          · rw [ht] at habs; cases habs
          · simp only [trailingDeltaValue, ht]
            nlinarith [mul_nonneg (sub_nonneg.mpr hrR)
              (sub_nonneg.mpr (by linarith : d.value / 100 ≤ 1))]
        · simp only [trailingDeltaValue, ht]
          linarith
      refine ⟨max r p, ?_, le_max_left r p, ?_, ?_⟩
      · rw [hstep]
      · right
        rw [hstep, hd]
      · intro s s' hs hs'
        rcases hwf with hw | hw
        · rw [hw] at hs; cases hs
        · rw [hw] at hs
          rw [hstep, hd] at hs'
          have hseq : r - trailingDeltaValue (some d) r = s := Option.some.inj hs
          have hs'eq : max r p - trailingDeltaValue (some d) (max r p) = s' :=
            Option.some.inj hs'
          rw [← hseq, ← hs'eq]
          exact hmono
    · have hstep : trailingStepSell o p = o := by
        simp [trailingStepSell, hr, jsOr0, jsGtO, hc]
      refine ⟨r, ?_, le_refl r, Or.inl ?_, ?_⟩
      · rw [hstep, hr]
      · rw [hstep]
      · intro s s' hs hs'
        rw [hstep] at hs'
        rw [hs] at hs'
        exact le_of_eq (Option.some.inj hs')
  · refine ⟨?_, ?_, ?_, ?_⟩ <;>
      norm_num +decide [exDb3, exDb2, exDb1, processPriceUpdate, processOrder,
        triggerAndExecute, trailingStepSell, trailingStepBuy, trailingDeltaValue,
        jsLeQ, jsGeQ, jsGtO, jsLtO, jsOr0, jsOrInfMin, saveOrder, getOrder,
        executeTrade, executeTradeCore, tradeTotal, executionPrice, jsMul, jsLt,
        exDb, exOrder, exDelta, c5order]

/-- Witness for C5: the monotonicity theorem applied to the concrete
example order (reference 100, ABSOLUTE delta 5) at tick price 110. -/
theorem c5_trailing_sell_stop_monotone_witness :
    ∃ r', (trailingStepSell exOrder 110).trailingReferencePrice = some r' ∧
      (100 : ℚ) ≤ r' ∧
      ((trailingStepSell exOrder 110).stopPrice = exOrder.stopPrice ∨
        (trailingStepSell exOrder 110).stopPrice =
          some (r' - trailingDeltaValue (some exDelta) r')) ∧
      (∀ s s', exOrder.stopPrice = some s →
        (trailingStepSell exOrder 110).stopPrice = some s' → s ≤ s') :=
  c5_trailing_sell_stop_monotone.1 exOrder exDelta 100 110 rfl (Or.inl rfl) rfl
    (Or.inl rfl)

/-- C6: after every per-symbol tick update, the daily envelope contains
the new price — `low ≤ price ≤ high` holds on the updated PriceState
regardless of day rollover, manipulation phase, market price and noise. -/
theorem c6_low_le_price_le_high (doc : PriceDoc) (now : ℚ) (today : String)
    (cmp noise : ℚ) :
    (tickSymbol doc now today cmp noise).low ≤ (tickSymbol doc now today cmp noise).price ∧
    (tickSymbol doc now today cmp noise).price ≤ (tickSymbol doc now today cmp noise).high := by
  refine ⟨?_, ?_⟩ <;> simp only [tickSymbol]
  · exact min_le_right _ _
  · exact le_max_right _ _

/-- C7 counterexample: the claim as stated is false — progress is not
clamped below 0. At elapsed = −1000 with durationMs = 1000, the source
computes progress −1, ease 2·(−1)² = 2 and returns 300, while the
claimed `clamp(elapsed/duration, 0, 1)` formula returns the start price
100. -/
theorem c7_negative_elapsed_counterexample :
    calculateManipulatedPrice 100 200 1000 (-1000) = 300 ∧
    specEaseClamped 100 200 1000 (-1000) = 100 ∧
    calculateManipulatedPrice 100 200 1000 (-1000) ≠
      specEaseClamped 100 200 1000 (-1000) := by
  refine ⟨?_, ?_, ?_⟩ <;>
    norm_num [calculateManipulatedPrice, specEaseClamped]

/-- C7 (amended): the easing function computes progress
`p = min(elapsedMs/durationMs, 1)` — clamped above only — and then the
quadratic ease-in-out and affine combination exactly as claimed; for
every elapsedMs ≥ 0 (and durationMs > 0) this coincides with the claimed
`clamp(elapsedMs/durationMs, 0, 1)` formula. -/
theorem c7_ease_matches_clamped_for_nonneg (s v d el : ℚ) (hd : 0 < d)
    (hel : 0 ≤ el) :
    calculateManipulatedPrice s v d el = specEaseClamped s v d el := by
  have hnn : 0 ≤ min (el / d) 1 := le_min (div_nonneg hel hd.le) zero_le_one
  simp only [calculateManipulatedPrice, specEaseClamped, max_eq_right hnn]

/-- Witness for C7: the amended agreement theorem evaluated at
(100, 200, 1000, 500). -/
theorem c7_ease_matches_clamped_witness :
    calculateManipulatedPrice 100 200 1000 500 = specEaseClamped 100 200 1000 500 :=
  c7_ease_matches_clamped_for_nonneg 100 200 1000 500 (by norm_num) (by norm_num)

/-- C8: the easing is a pure function of (startPrice, endValue,
durationMs, elapsed) with the endpoint identities
`ease(s, v, d, 0) = s` and `ease(s, v, d, d) = v` for every d > 0, and
the claim's example `ease(45000, 50000, 600000, 300000) = 47500`. -/
theorem c8_ease_endpoint_identities (s v d : ℚ) (hd : 0 < d) :
    calculateManipulatedPrice s v d 0 = s ∧
    calculateManipulatedPrice s v d d = v ∧
    calculateManipulatedPrice 45000 50000 600000 300000 = 47500 := by
  refine ⟨?_, ?_, ?_⟩
  · norm_num [calculateManipulatedPrice]
  · rw [calculateManipulatedPrice, div_self hd.ne']
    norm_num
  · norm_num [calculateManipulatedPrice]

/-- Witness for C8: the endpoint identities evaluated at
(45000, 50000, 600000). -/
theorem c8_ease_endpoint_identities_witness :
    calculateManipulatedPrice 45000 50000 600000 0 = 45000 ∧
    calculateManipulatedPrice 45000 50000 600000 600000 = 50000 :=
  ⟨(c8_ease_endpoint_identities 45000 50000 600000 (by norm_num)).1,
   (c8_ease_endpoint_identities 45000 50000 600000 (by norm_num)).2.1⟩

/-- C9 counterexample: the claim as stated is false — the two "exactly
when" conditions conflict when both faults hold. For a symbol with no
PriceState and an empty window (start 10, end 5), the command rejects
with InvalidWindow, not SymbolNotFound (window validation runs first),
and the state is unchanged. -/
theorem c9_missing_symbol_invalid_window_counterexample :
    (setManipulation st9 "BTCUSDT" 10 5 42).2 = .error ManipError.InvalidWindow ∧
    (setManipulation st9 "BTCUSDT" 10 5 42).1 = st9 ∧
    st9.docs.find? (fun d => decide (d.symbol = "BTCUSDT")) = none ∧
    ManipError.InvalidWindow ≠ ManipError.SymbolNotFound := by
  refine ⟨?_, ?_, rfl, by decide⟩ <;> norm_num [setManipulation, st9]

/-- C9 (amended): the manipulation command rejects with InvalidWindow
exactly when endTime ≤ startTime, and with SymbolNotFound exactly when
the window is valid and the symbol has no PriceState (window validation
precedes the symbol lookup); every rejection leaves the state unchanged,
and on success the stored manipulation takes the symbol's current price
as originalPrice and durationMs = endTime − startTime, and the record
collection grows by exactly the corresponding record. -/
theorem c9_manipulation_validation (st : PricesState) (symbol : String) (s e v : ℚ) :
    ((setManipulation st symbol s e v).2 = .error ManipError.InvalidWindow ↔ e ≤ s) ∧
    ((setManipulation st symbol s e v).2 = .error ManipError.SymbolNotFound ↔
      (s < e ∧ st.docs.find? (fun d => decide (d.symbol = symbol)) = none)) ∧
    (∀ err, (setManipulation st symbol s e v).2 = .error err →
      (setManipulation st symbol s e v).1 = st) ∧
    (∀ doc, st.docs.find? (fun d => decide (d.symbol = symbol)) = some doc → s < e →
      (setManipulation st symbol s e v).2 = .ok (mkManip s e v doc.price) ∧
      (setManipulation st symbol s e v).1.manips =
        st.manips ++ [mkManipRecord symbol s e v doc.price] ∧
      (mkManip s e v doc.price).originalPrice = doc.price ∧
      (mkManip s e v doc.price).durationMs = e - s) := by
  by_cases hle : e ≤ s
  · have hnlt : ¬ s < e := not_lt.mpr hle
    simp [setManipulation, hle, hnlt]
  · have hlt : s < e := not_le.mp hle
    rcases hf : st.docs.find? (fun d => decide (d.symbol = symbol)) with _ | doc0
    · simp [setManipulation, hle, hlt, hf]
    · simp only [setManipulation, if_neg hle, hf]
      refine ⟨by simp [hlt], by simp, by simp, ?_⟩
      intro doc hdoc _
      obtain rfl : doc0 = doc := Option.some.inj hdoc
      exact ⟨rfl, rfl, rfl, rfl⟩

/-- Witness for C9: the amended theorem applied to a store holding one
PriceState at price 45000, with the window (0, 600000). -/
theorem c9_manipulation_validation_witness :
    (setManipulation st9ok "BTCUSDT" 0 600000 50000).2 =
      .ok (mkManip 0 600000 50000 pd0.price) ∧
    (setManipulation st9ok "BTCUSDT" 0 600000 50000).1.manips =
      st9ok.manips ++ [mkManipRecord "BTCUSDT" 0 600000 50000 pd0.price] := by
  have h := (c9_manipulation_validation st9ok "BTCUSDT" 0 600000 50000).2.2.2 pd0
    (by norm_num [st9ok, pd0]) (by norm_num)
  exact ⟨h.1, h.2.1⟩

/-- Auxiliary: the manipulation branch of the tick never produces a
sub-state with both lifecycle flags set. -/
theorem manipNewPrice_flags (m : Option Manip) (now cmp noise : ℚ)
    (h : manipOK m = true) : manipOK (manipNewPrice m now cmp noise).2 = true := by
  rcases m with _ | manip
  · simp [manipNewPrice, manipOK]
  · simp only [manipNewPrice]
    split_ifs <;> simp_all [manipOK]

/-- C10: the manipulation sub-state never has isActive and isCoolingDown
both true — the per-symbol tick (covering the active→cooldown transition
and the cooldown-clearing transition) preserves the invariant, and the
manipulation command (creating or overwriting a manipulation) only ever
stores sub-states satisfying it. -/
theorem c10_flags_never_both_set :
    (∀ (doc : PriceDoc) (now : ℚ) (today : String) (cmp noise : ℚ),
      manipOK doc.manipulation = true →
      manipOK (tickSymbol doc now today cmp noise).manipulation = true) ∧
    (∀ (st : PricesState) (symbol : String) (s e v : ℚ) (m : Manip),
      (setManipulation st symbol s e v).2 = .ok m → manipOK (some m) = true) ∧
    (∀ (st : PricesState) (symbol : String) (s e v : ℚ),
      (∀ d ∈ st.docs, manipOK d.manipulation = true) →
      ∀ d ∈ (setManipulation st symbol s e v).1.docs, manipOK d.manipulation = true) := by
  refine ⟨?_, ?_, ?_⟩
  · intro doc now today cmp noise h
    have hm : (tickSymbol doc now today cmp noise).manipulation =
        (manipNewPrice doc.manipulation now cmp noise).2 := by
      simp only [tickSymbol]
      split <;> rfl
    rw [hm]
    exact manipNewPrice_flags doc.manipulation now cmp noise h
  · intro st symbol s e v m hok
    by_cases hle : e ≤ s
    · simp [setManipulation, hle] at hok
    · rcases hf : st.docs.find? (fun d => decide (d.symbol = symbol)) with _ | doc0
      · simp [setManipulation, hle, hf] at hok
      · simp only [setManipulation, if_neg hle, hf] at hok
        obtain rfl : mkManip s e v doc0.price = m := Except.ok.inj hok
        simp [manipOK, mkManip]
  · intro st symbol s e v hpre d hd
    by_cases hle : e ≤ s
    · rw [setManipulation, if_pos hle] at hd
      exact hpre d hd
    · rcases hf : st.docs.find? (fun d => decide (d.symbol = symbol)) with _ | doc0
      · rw [setManipulation, if_neg hle] at hd
        rw [hf] at hd
        exact hpre d hd
      · rw [setManipulation, if_neg hle] at hd
        rw [hf] at hd
        simp only [List.mem_map] at hd
        obtain ⟨x, hx, hxd⟩ := hd
        by_cases hsym : x.symbol = symbol
        · rw [if_pos hsym] at hxd
          rw [← hxd]
          simp [manipOK, mkManip]
        · rw [if_neg hsym] at hxd
          rw [← hxd]
          exact hpre x hx

/-- Witness for C10: the tick-preservation conjunct applied to a document
whose active manipulation window has just elapsed (the active→cooldown
transition fires). -/
theorem c10_flags_never_both_set_witness :
    manipOK (tickSymbol pdA 12 "2026-10-11" 42 0).manipulation = true :=
  c10_flags_never_both_set.1 pdA 12 "2026-10-11" 42 0 (by norm_num [pdA, mA, manipOK])

end Tradin
